import Mathlib

/-!
Shallow embedding of the EVM volume-bot trading engine
(src/server/server.js and src/server/mysever.js).

Amounts of native currency and tokens are rationals (the JS code works with
`Number` values obtained from `formatEther`); on-chain wei quantities handled
as ethers `BigNumber`s are integers.  Randomness is passed in explicitly: each
`Math.random()` draw becomes a rational parameter constrained to `[0,1]`.
Fallible chain calls become `Except`/`Option` parameters.  The two variants of
a function are prefixed `server_` (server.js) and `mysever_` (mysever.js) when
they differ; shared logic carries the source name directly.
-/

namespace VolumeBot

/-- GLOBAL_CONFIG.RANDOM_VARIANCE (both variants). -/
def RANDOM_VARIANCE : ℚ := 1 / 100

/-- GLOBAL_CONFIG.MIN_AVAX_BALANCE (both variants). -/
def MIN_AVAX_BALANCE : ℚ := 1 / 1000

/-- GLOBAL_CONFIG.ACTIVE_WALLET_PERCENTAGE (both variants). -/
def ACTIVE_WALLET_PERCENTAGE : ℚ := 7 / 10

/-- CHAIN_CONFIG.avax.maxGasPrice, in gwei (both variants). -/
def defaultMaxGasPrice : ℚ := 50

/-! ## Gas-price gating (C1)

server.js lines 99-103:
```js
async isGasPriceAcceptable() {
  const chainGas = await this.provider.getGasPrice();
  const chainGasGwei = Number(ethers.utils.formatUnits(chainGas, "gwei"));
  return true;
}
```
The gwei value is computed and then discarded: the function returns `true`
unconditionally.  mysever.js lines 197-201 instead return
`chainGasGwei < this.chainConfig.maxGasPrice`.
-/

/-- server.js `isGasPriceAcceptable`: the queried gas price is converted to
gwei and then ignored; the result is always `true`. -/
def server_isGasPriceAcceptable (chainGasGwei : ℚ) : Bool :=
  let _ := chainGasGwei
  true

/-- mysever.js `isGasPriceAcceptable`: strict comparison of the gwei gas
price against the configured maximum. -/
def mysever_isGasPriceAcceptable (chainGasGwei maxGasPrice : ℚ) : Bool :=
  chainGasGwei < maxGasPrice

/-- What a scheduling cycle does right after the gas check (startTrading,
both variants): `continue` into a retry-delay sleep when the gas check fails,
otherwise fall through to the eligibility scan. -/
inductive CycleAction where
  | sleepRetry : CycleAction
  | eligibilityScan : CycleAction
deriving DecidableEq, Repr

/-- The gas-gate branch of one cycle of mysever.js `startTrading`. -/
def mysever_cycleGasBranch (chainGasGwei maxGasPrice : ℚ) : CycleAction :=
  if mysever_isGasPriceAcceptable chainGasGwei maxGasPrice then
    CycleAction.eligibilityScan
  else
    CycleAction.sleepRetry

/-- The gas-gate branch of one cycle of server.js `startTrading`. -/
def server_cycleGasBranch (chainGasGwei : ℚ) : CycleAction :=
  if server_isGasPriceAcceptable chainGasGwei then
    CycleAction.eligibilityScan
  else
    CycleAction.sleepRetry

/-! ## Slippage quoting and minimum-out (C3) -/

/-- `calculateSlippage` (server.js 74-83, mysever.js 172-181): calls
`getAmountsOut`, takes the last element of the returned amounts list and
formats it; any error inside the try (including the call itself failing, or
the list being empty so that indexing yields undefined) is caught and `null`
is returned. -/
def calculateSlippage (getAmountsOut : Except Unit (List ℚ)) : Option ℚ :=
  match getAmountsOut with
  | Except.error _ => none
  | Except.ok amounts => amounts.getLast?

/-- The minimum-out ternary shared by both swap paths:
`expectedOutput ? parseEther((Number(expectedOutput) * 0.95)...) : 0`. -/
def minOutOf (expectedOutput : Option ℚ) : ℚ :=
  match expectedOutput with
  | some e => e * (95 / 100)
  | none => 0

/-- Minimum-out computed by `buyTokensWithAVAX` (server.js 272-275,
mysever.js 260-263) from the quote for the buy path. -/
def buyMinOut (getAmountsOut : Except Unit (List ℚ)) : ℚ :=
  minOutOf (calculateSlippage getAmountsOut)

/-- Minimum-out computed by `sellTokensForAVAX` (server.js 305-309,
mysever.js 291-294) from the quote for the sell path. -/
def sellMinOut (getAmountsOut : Except Unit (List ℚ)) : ℚ :=
  minOutOf (calculateSlippage getAmountsOut)

/-! ## Random trade amount (C4) -/

/-- `generateRandomAmount` (server.js 85-92, mysever.js 183-190):
`base = min + r1 * (max - min)`; `variance = base * varianceFactor * (2*r2 - 1)`;
result `base + variance`, with `r1`, `r2` the two `Math.random()` draws. -/
def generateRandomAmount (minAmount maxAmount varianceFactor r1 r2 : ℚ) : ℚ :=
  let baseAmount := minAmount + r1 * (maxAmount - minAmount)
  let variance := baseAmount * varianceFactor * (r2 * 2 - 1)
  baseAmount + variance

/-! ## Sell sizing (C9) -/

/-- The sell-amount computation of `sellTokensForAVAX` (server.js 288-290,
mysever.js 276-278): a fraction `0.3 + r * 0.4` of the available balance. -/
def sellAmount (availableAmount r : ℚ) : ℚ :=
  let sellPercentage := 3 / 10 + r * (4 / 10)
  availableAmount * sellPercentage

end VolumeBot

namespace VolumeBot

/-! ## Wallet records and the active set (C5, C6) -/

/-- A temp-wallet record as persisted in `temp_wallets_<chain>.json`:
address, private key, last trade timestamp.  Addresses and keys are abstract
identifiers (naturals); times are naturals (milliseconds). -/
structure Wallet where
  address : ℕ
  privateKey : ℕ
  lastTradeTime : ℕ
deriving DecidableEq, Repr

/-- The active-wallet count of `updateActiveWallets`:
`Math.floor(this.tempWallets.length * ACTIVE_WALLET_PERCENTAGE)`. -/
def activeCount (poolSize : ℕ) : ℕ :=
  ⌊(poolSize : ℚ) * ACTIVE_WALLET_PERCENTAGE⌋₊

/-- `updateActiveWallets` (server.js 333-341, mysever.js 135-143): the pool is
shuffled (the random comparator yields some permutation `shuffled` of the
pool), the first `activeCount` wallets are taken, and their addresses form a
JS `Set`.  The permutation is an explicit input. -/
def updateActiveWallets (shuffled : List Wallet) : Finset ℕ :=
  ((shuffled.take (activeCount shuffled.length)).map Wallet.address).toFinset

/-- One freshly generated wallet record of `initializeTempWallets`: address
derived from the random private key, `lastTradeTime` 0. -/
def mkWallet (addrOf : ℕ → ℕ) (privateKey : ℕ) : Wallet :=
  { address := addrOf privateKey, privateKey := privateKey, lastTradeTime := 0 }

/-- The generation loop of `initializeTempWallets` (server.js 114-122,
mysever.js 111-119): `tempWalletCount` fresh records, the i-th from the i-th
random key draw. -/
def generateWallets (addrOf : ℕ → ℕ) (keys : ℕ → ℕ) (tempWalletCount : ℕ) :
    List Wallet :=
  (List.range tempWalletCount).map (fun i => mkWallet addrOf (keys i))

/-- `initializeTempWallets` (server.js 105-136, mysever.js 102-133) as a
function of the persisted file's state: if the wallet file exists its parsed
contents are loaded verbatim and the file is left as it was; otherwise
`tempWalletCount` fresh wallets are generated and written to the file.
Returns `(this.tempWallets, file contents afterwards)`. -/
def initializeTempWallets (file : Option (List Wallet)) (addrOf keys : ℕ → ℕ)
    (tempWalletCount : ℕ) : List Wallet × List Wallet :=
  match file with
  | some walletData => (walletData, walletData)
  | none =>
      let ws := generateWallets addrOf keys tempWalletCount
      (ws, ws)

/-! ## executeTrade (C2) -/

/-- How one `executeTrade` call ends: the swap path ran to completion, the
trade was silently skipped because the AVAX balance could not cover the drawn
amount plus the safety floor, or a chain call threw and was caught. -/
inductive TradeOutcome where
  | success (isBuy : Bool) : TradeOutcome
  | insufficientBalance : TradeOutcome
  | chainError : TradeOutcome
deriving DecidableEq, Repr

/-- The environment one `executeTrade` call observes: the wallet's balances,
the two random draws that size the trade, the direction coin flip, whether the
chosen swap path (including funding, approval, confirmation and the sell-path
sweep) throws, and the scheduler clock `Date.now()`. -/
structure TradeEnv where
  avaxBalance : ℚ
  tokenBalance : ℚ
  r1 : ℚ
  r2 : ℚ
  coinHigh : Bool
  swapThrows : Bool
  now : ℕ

/-- `executeTrade` (server.js 201-261, mysever.js 203-249): fund, read
balances, draw a trade amount, silently return when
`AVAXBalance < tradeAmount + MIN_AVAX_BALANCE`, otherwise pick the direction
(`isBuy = !canSell || Math.random() > 0.5`) and run the swap path; only after
the swap returns is `walletInfo.lastTradeTime = Date.now()` executed, and a
thrown error jumps to the catch, skipping that assignment.  Returns the
wallet record as it stands after the call together with the outcome. -/
def executeTrade (minAmount maxAmount : ℚ) (walletInfo : Wallet)
    (env : TradeEnv) : Wallet × TradeOutcome :=
  let tradeAmount := generateRandomAmount minAmount maxAmount RANDOM_VARIANCE
    env.r1 env.r2
  if env.avaxBalance < tradeAmount + MIN_AVAX_BALANCE then
    (walletInfo, TradeOutcome.insufficientBalance)
  else
    let canSell := env.tokenBalance > 0
    let isBuy := !canSell || env.coinHigh
    if env.swapThrows then
      (walletInfo, TradeOutcome.chainError)
    else
      ({ walletInfo with lastTradeTime := env.now }, TradeOutcome.success isBuy)

/-- `TradeOutcome.success?`: whether the outcome is a completed swap. -/
def TradeOutcome.success? : TradeOutcome → Bool
  | TradeOutcome.success _ => true
  | _ => false

/-! ## Sweeping funds back to the main wallet (C7)

Wei quantities are integers because ethers `BigNumber` subtraction is signed:
`balance.sub(gasCost)` can be negative and `.gt(0)` then fails.
-/

/-- `ethers.utils.parseEther("0.01")`, the reserve threshold of the server.js
sweep, in wei. -/
def sweepThreshold : ℤ := 10 ^ 16

/-- `returnFundsToMain` (server.js 165-199): only when the balance exceeds
0.01 AVAX is the remainder `balance - gasPrice * 21000` computed, and it is
transferred only when positive.  Returns the wei amount transferred, or
`none` when no transaction is sent. -/
def server_returnFundsToMain (balance gasPrice : ℤ) : Option ℤ :=
  if balance > sweepThreshold then
    let gasCost := gasPrice * 21000
    let amountToSend := balance - gasCost
    if amountToSend > 0 then some amountToSend else none
  else
    none

/-- `returnFundsToMain` (mysever.js 313-341): no threshold check; the
remainder `balance - gasPrice * 21000` is transferred whenever positive. -/
def mysever_returnFundsToMain (balance gasPrice : ℤ) : Option ℤ :=
  let amountToSend := balance - gasPrice * 21000
  if amountToSend > 0 then some amountToSend else none

/-! ## The trading loop and cooperative stop (C8)

mysever.js `startTrading` (343-408) runs `while (this.running) {...}`; inside
a cycle, `for (const wallet of eligibleWallets)` awaits `executeTrade` for
every eligible wallet without consulting `this.running`; `stopTrading`
(410-413) sets `this.running = false`, which is observed only at the next
evaluation of the `while` condition.
-/

/-- Scheduler state: the stop flag `this.running`, the eligible wallets not
yet traded in the current cycle's for-loop, and the log of wallets for which
`executeTrade` has been awaited, in order. -/
structure SchedState where
  running : Bool
  remaining : List Wallet
  traded : List Wallet
deriving DecidableEq, Repr

/-- `stopTrading` (mysever.js 410-413): sets `this.running = false`. -/
def stopTrading (s : SchedState) : SchedState :=
  { s with running := false }

/-- One iteration of the cycle's for-loop: `executeTrade` the next eligible
wallet.  The loop condition is the list of remaining wallets; `this.running`
is not read here. -/
def forStep (s : SchedState) : SchedState :=
  match s.remaining with
  | [] => s
  | w :: ws => { s with remaining := ws, traded := s.traded ++ [w] }

/-- The for-loop of one cycle, run over a list of wallets still to process:
each iteration appends the wallet whose `executeTrade` was awaited to the
log.  `this.running` is never consulted between iterations. -/
def forLoopRun (traded : List Wallet) : List Wallet → List Wallet
  | [] => traded
  | w :: ws => forLoopRun (traded ++ [w]) ws

/-- Running the rest of the current cycle's for-loop to completion, as the
code does unconditionally. -/
def finishCycle (s : SchedState) : SchedState :=
  { s with remaining := [], traded := forLoopRun s.traded s.remaining }

/-- The `while (this.running)` condition, consulted at the top of each cycle. -/
def loopTopContinues (s : SchedState) : Bool :=
  s.running

/-! ## The /api/start override coalescing (C10)

mysever.js 438-459: each override from the request body is parsed
(`parseFloat` / `parseInt`) and combined with the chain default through `||`.
A parse result is modelled as `Option ℚ` (or `Option ℤ`), `none` standing for
NaN; `x || d` yields `d` exactly when `x` is NaN or `0`.
-/

/-- JS `(parse result) || default` over numbers: NaN and `0` are falsy. -/
def jsOr (parsed : Option ℚ) (dflt : ℚ) : ℚ :=
  match parsed with
  | none => dflt
  | some x => if x = 0 then dflt else x

/-- The parameters the start endpoint installs on the fresh bot. -/
structure StartParams where
  walletCounts : ℚ
  fundAmount : ℚ
  maxGasPrice : ℚ
  minAmountAVAX : ℚ
  maxAmountAVAX : ℚ
  minInterval : ℚ
  maxInterval : ℚ
deriving DecidableEq, Repr

/-- The default parameters a fresh mysever.js bot is constructed with
(CHAIN_CONFIG.avax, and the literal `5` default of walletCounts). -/
def myseverDefaults : StartParams :=
  { walletCounts := 5
    fundAmount := 4 / 10
    maxAmountAVAX := 3 / 100
    minAmountAVAX := 1 / 100
    maxGasPrice := 50
    minInterval := 60000
    maxInterval := 120000 }

/-- The override block of `app.post("/api/start")` (mysever.js 438-459):
every supplied value is parsed and `||`-coalesced with the default; the two
interval overrides are scaled by 1000 before the coalescing
(`parseInt(x) * 1000 || default`). -/
def applyStartOverrides (walletCounts AvaxFundAmount maxGas tradingMintAmount
    tradingMaxAmount tradingMinInterval tradingMaxInterval : Option ℚ) :
    StartParams :=
  { walletCounts := jsOr walletCounts myseverDefaults.walletCounts
    fundAmount := jsOr AvaxFundAmount myseverDefaults.fundAmount
    maxGasPrice := jsOr maxGas myseverDefaults.maxGasPrice
    minAmountAVAX := jsOr tradingMintAmount myseverDefaults.minAmountAVAX
    maxAmountAVAX := jsOr tradingMaxAmount myseverDefaults.maxAmountAVAX
    minInterval :=
      jsOr (tradingMinInterval.map (· * 1000)) myseverDefaults.minInterval
    maxInterval :=
      jsOr (tradingMaxInterval.map (· * 1000)) myseverDefaults.maxInterval }

end VolumeBot

namespace VolumeBot

/-! ## Theorems -/

/-- Running the for-loop appends the processed wallets to the log in order. -/
theorem forLoopRun_eq_append (rem traded : List Wallet) :
    forLoopRun traded rem = traded ++ rem := by
  induction rem generalizing traded with
  | nil => simp [forLoopRun]
  | cons w ws ih => simp [forLoopRun, ih]

/-- Finishing the current cycle after one for-loop iteration agrees with
finishing it outright: the iteration is one unrolling of the loop. -/
theorem finishCycle_forStep (s : SchedState) :
    finishCycle (forStep s) = finishCycle s := by
  cases s with
  | mk running remaining traded =>
      cases remaining with
      | nil => rfl
      | cons w ws => simp [finishCycle, forStep, forLoopRun]

/-- A `||`-coalesced parameter is never zero when its default is not. -/
theorem jsOr_ne_zero (v : Option ℚ) (d : ℚ) (hd : d ≠ 0) : jsOr v d ≠ 0 := by
  cases v with
  | none => simpa [jsOr] using hd
  | some x => by_cases hx : x = 0 <;> simp [jsOr, hx, hd]

/-- C1: with chain gas at 60 gwei and maxGasPrice 50, the mysever.js cycle
sleeps the retry delay and attempts no trade, and at 40 gwei it proceeds to
the eligibility scan — but the server.js variant's `isGasPriceAcceptable`
returns `true` even at 60 gwei, so that cycle proceeds to the eligibility
scan and may trade, contradicting the gas gate the claim describes. -/
theorem C1_gas_gate_evaluation :
    mysever_cycleGasBranch 60 50 = CycleAction.sleepRetry ∧
    mysever_cycleGasBranch 40 50 = CycleAction.eligibilityScan ∧
    server_isGasPriceAcceptable 60 = true ∧
    server_cycleGasBranch 60 = CycleAction.eligibilityScan := by
  refine ⟨?_, ?_, rfl, rfl⟩ <;>
    norm_num [mysever_cycleGasBranch, mysever_isGasPriceAcceptable]

/-- C2 counterexample: a wallet whose AVAX balance (0) cannot cover the drawn
trade amount plus the safety floor is silently skipped by `executeTrade`, and
its `lastTradeTime` stays 0 instead of advancing to the current time 1000 —
the claim that every return path advances `lastTradeTime` is false. -/
theorem C2_counterexample :
    (executeTrade (1/100) (3/100) ⟨1, 2, 0⟩
        ⟨0, 0, 0, 1/2, true, false, 1000⟩).2 =
      TradeOutcome.insufficientBalance ∧
    (executeTrade (1/100) (3/100) ⟨1, 2, 0⟩
        ⟨0, 0, 0, 1/2, true, false, 1000⟩).1.lastTradeTime = 0 := by
  constructor <;>
    norm_num [executeTrade, generateRandomAmount, RANDOM_VARIANCE,
      MIN_AVAX_BALANCE]

/-- C2 amended: `executeTrade` advances the wallet's `lastTradeTime` to the
current time exactly when the swap path runs to completion; on a silent
insufficient-balance abort or a caught chain error the record is returned
unchanged — and the assignment happens inside the executor itself, not in the
scheduling loop. -/
theorem C2_lastTradeTime_only_on_success (minAmount maxAmount : ℚ)
    (walletInfo : Wallet) (env : TradeEnv) :
    (executeTrade minAmount maxAmount walletInfo env).1 =
      (if ((executeTrade minAmount maxAmount walletInfo env).2).success?
       then { walletInfo with lastTradeTime := env.now }
       else walletInfo) := by
  unfold executeTrade
  by_cases h1 : env.avaxBalance <
      generateRandomAmount minAmount maxAmount RANDOM_VARIANCE env.r1 env.r2 +
        MIN_AVAX_BALANCE
  · simp [h1, TradeOutcome.success?]
  · by_cases h2 : env.swapThrows <;> simp [h1, h2, TradeOutcome.success?]

/-- C3: in both the buy path and the sell path, the minimum-out passed to the
swap is 0.95 times the router-quoted expected output when the quote succeeds,
and exactly 0 when the quote helper returns the failure marker. -/
theorem C3_minOut_policy (q : Except Unit (List ℚ)) :
    (∀ e : ℚ, calculateSlippage q = some e →
      buyMinOut q = 95 / 100 * e ∧ sellMinOut q = 95 / 100 * e) ∧
    (calculateSlippage q = none → buyMinOut q = 0 ∧ sellMinOut q = 0) := by
  constructor
  · intro e he
    constructor <;> simp [buyMinOut, sellMinOut, minOutOf, he, mul_comm]
  · intro he
    constructor <;> simp [buyMinOut, sellMinOut, minOutOf, he]

/-- C3 witness: a successful quote returning amounts [1, 2] yields minimum-out
0.95 × 2 on both paths; a failed quote yields 0 on both paths. -/
theorem C3_minOut_policy_witness :
    buyMinOut (Except.ok [(1 : ℚ), 2]) = 95 / 100 * 2 ∧
    sellMinOut (Except.ok [(1 : ℚ), 2]) = 95 / 100 * 2 ∧
    buyMinOut (Except.error ()) = 0 ∧ sellMinOut (Except.error ()) = 0 := by
  have h1 := (C3_minOut_policy (Except.ok [(1 : ℚ), 2])).1 2 rfl
  have h2 := (C3_minOut_policy (Except.error ())).2 rfl
  exact ⟨h1.1, h1.2, h2.1, h2.2⟩

/-- C4 counterexample: with minAmount = maxAmount = 1 and the code's variance
factor 0.01, the draw with r1 = 0, r2 = 0 is 0.99 < minAmount, so the claimed
lower bound `minAmount ≤ result` fails; and with variance factor 2 (≥ 0, as
the claim allows) the same draw is −1 < 0, so non-negativity fails too. -/
theorem C4_counterexample :
    generateRandomAmount 1 1 RANDOM_VARIANCE 0 0 < 1 ∧
    generateRandomAmount 1 1 2 0 0 < 0 := by
  constructor <;> norm_num [generateRandomAmount, RANDOM_VARIANCE]

/-- C4 amended: for 0 < minAmount ≤ maxAmount and a variance factor in
[0, 1] (the code fixes it at 0.01), every draw satisfies
minAmount × (1 − varianceFactor) ≤ result ≤ maxAmount × (1 + varianceFactor)
and result ≥ 0. -/
theorem C4_amount_bounds (minAmount maxAmount varianceFactor r1 r2 : ℚ)
    (hmin : 0 < minAmount) (hle : minAmount ≤ maxAmount)
    (hv0 : 0 ≤ varianceFactor) (hv1 : varianceFactor ≤ 1)
    (hr1 : 0 ≤ r1) (hr1' : r1 ≤ 1) (hr2 : 0 ≤ r2) (hr2' : r2 ≤ 1) :
    minAmount * (1 - varianceFactor) ≤
        generateRandomAmount minAmount maxAmount varianceFactor r1 r2 ∧
    generateRandomAmount minAmount maxAmount varianceFactor r1 r2 ≤
        maxAmount * (1 + varianceFactor) ∧
    0 ≤ generateRandomAmount minAmount maxAmount varianceFactor r1 r2 := by
  have hexp : generateRandomAmount minAmount maxAmount varianceFactor r1 r2 =
      (minAmount + r1 * (maxAmount - minAmount)) *
        (1 + varianceFactor * (r2 * 2 - 1)) := by
    simp only [generateRandomAmount]; ring
  rw [hexp]
  have hd : (0 : ℚ) ≤ maxAmount - minAmount := by linarith
  have hbase1 : minAmount ≤ minAmount + r1 * (maxAmount - minAmount) := by
    nlinarith [mul_nonneg hr1 hd]
  have hbase2 : minAmount + r1 * (maxAmount - minAmount) ≤ maxAmount := by
    nlinarith [mul_le_mul_of_nonneg_right hr1' hd]
  have hbase0 : (0 : ℚ) ≤ minAmount + r1 * (maxAmount - minAmount) := by
    linarith
  have hf1 : 1 - varianceFactor ≤ 1 + varianceFactor * (r2 * 2 - 1) := by
    nlinarith [mul_nonneg hv0 hr2]
  have hf2 : 1 + varianceFactor * (r2 * 2 - 1) ≤ 1 + varianceFactor := by
    nlinarith [mul_le_mul_of_nonneg_left hr2' hv0]
  have hf0 : (0 : ℚ) ≤ 1 + varianceFactor * (r2 * 2 - 1) := by linarith
  have h1v : (0 : ℚ) ≤ 1 + varianceFactor := by linarith
  refine ⟨?_, ?_, ?_⟩
  · have a1 := mul_le_mul_of_nonneg_left hf1 hmin.le
    have a2 := mul_le_mul_of_nonneg_right hbase1 hf0
    linarith
  · have a1 := mul_le_mul_of_nonneg_left hf2 hbase0
    have a2 := mul_le_mul_of_nonneg_right hbase2 h1v
    linarith
  · exact mul_nonneg hbase0 hf0

/-- C4 witness: the amended bounds at minAmount 1, maxAmount 2, variance
factor 0.01, draws r1 = 0, r2 = 0. -/
theorem C4_amount_bounds_witness :
    1 * (1 - 1/100) ≤ generateRandomAmount 1 2 (1/100) 0 0 ∧
    generateRandomAmount 1 2 (1/100) 0 0 ≤ 2 * (1 + 1/100) ∧
    0 ≤ generateRandomAmount 1 2 (1/100) 0 0 :=
  C4_amount_bounds 1 2 (1/100) 0 0 (by norm_num) (by norm_num) (by norm_num)
    (by norm_num) (by norm_num) (by norm_num) (by norm_num) (by norm_num)

end VolumeBot

namespace VolumeBot

/-- C5: after a recomputation of the active set over any pool (whose records
carry pairwise-distinct addresses, the data model's identity invariant), the
active set is a subset of the pool's addresses and its size is
⌊poolSize × activeFraction⌋. -/
theorem C5_active_set (pool shuffled : List Wallet) (hperm : shuffled.Perm pool)
    (hnodup : (pool.map Wallet.address).Nodup) :
    updateActiveWallets shuffled ⊆ (pool.map Wallet.address).toFinset ∧
    (updateActiveWallets shuffled).card = activeCount pool.length := by
  have hlen : shuffled.length = pool.length := hperm.length_eq
  have hle : (pool.length : ℚ) * ACTIVE_WALLET_PERCENTAGE ≤ (pool.length : ℚ) := by
    unfold ACTIVE_WALLET_PERCENTAGE
    nlinarith [Nat.cast_nonneg (α := ℚ) pool.length]
  have hcnt : activeCount pool.length ≤ pool.length := by
    calc activeCount pool.length ≤ ⌊(pool.length : ℚ)⌋₊ :=
          Nat.floor_le_floor hle
      _ = pool.length := Nat.floor_natCast _
  constructor
  · intro a ha
    simp only [updateActiveWallets, List.mem_toFinset, List.mem_map] at ha ⊢
    obtain ⟨w, hw, rfl⟩ := ha
    exact ⟨w, hperm.mem_iff.mp (List.mem_of_mem_take hw), rfl⟩
  · have hmapnd : (shuffled.map Wallet.address).Nodup :=
      ((hperm.map Wallet.address).nodup_iff).mpr hnodup
    have htakend :
        ((shuffled.take (activeCount shuffled.length)).map Wallet.address).Nodup := by
      rw [List.map_take]
      exact ((shuffled.map Wallet.address).take_sublist _).nodup hmapnd
    rw [updateActiveWallets, List.toFinset_card_of_nodup htakend,
      List.length_map, List.length_take, hlen]
    exact Nat.min_eq_left (hlen ▸ hcnt)

/-- C5 witness: a three-wallet pool with distinct addresses, shuffled to
itself, yields an active set of size ⌊3 × 0.7⌋ = 2 contained in the pool. -/
theorem C5_active_set_witness :
    updateActiveWallets [⟨1, 1, 0⟩, ⟨2, 2, 0⟩, ⟨3, 3, 0⟩] ⊆
      (([⟨1, 1, 0⟩, ⟨2, 2, 0⟩, ⟨3, 3, 0⟩] : List Wallet).map
        Wallet.address).toFinset ∧
    (updateActiveWallets [⟨1, 1, 0⟩, ⟨2, 2, 0⟩, ⟨3, 3, 0⟩]).card =
      activeCount ([⟨1, 1, 0⟩, ⟨2, 2, 0⟩, ⟨3, 3, 0⟩] : List Wallet).length :=
  C5_active_set _ _ (List.Perm.refl _) (by decide)

/-- C6: loading with no persisted file and desired count n yields exactly n
records, all with lastTradeTime 0 and pairwise-distinct addresses (given that
the fresh random keys derive distinct addresses), persists them immediately,
and a subsequent load against the persisted file returns those records
unchanged. -/
theorem C6_load_fresh (addrOf keys g k : ℕ → ℕ) (n : ℕ)
    (ws file : List Wallet)
    (hrun : initializeTempWallets none addrOf keys n = (ws, file))
    (hinj : ∀ i, i < n → ∀ j, j < n →
      addrOf (keys i) = addrOf (keys j) → i = j) :
    ws.length = n ∧
    (ws.all fun w => w.lastTradeTime == 0) = true ∧
    (ws.map Wallet.address).Nodup ∧
    file = ws ∧
    initializeTempWallets (some file) g k n = (ws, file) := by
  have hws : ws = generateWallets addrOf keys n := by
    simpa [initializeTempWallets] using congrArg Prod.fst hrun.symm
  have hfile : file = generateWallets addrOf keys n := by
    simpa [initializeTempWallets] using congrArg Prod.snd hrun.symm
  subst hws
  refine ⟨?_, ?_, ?_, ?_, ?_⟩
  · simp [generateWallets]
  · simp [generateWallets, mkWallet, List.all_eq_true]
  · have : (generateWallets addrOf keys n).map Wallet.address =
        (List.range n).map fun i => addrOf (keys i) := by
      simp [generateWallets, mkWallet, Function.comp]
    rw [this]
    refine List.Nodup.map_on ?_ (List.nodup_range n)
    intro i hi j hj hij
    exact hinj i (List.mem_range.mp hi) j (List.mem_range.mp hj) hij
  · exact hfile
  · rw [hfile]; rfl

/-- C6 witness: with the identity key stream and identity address derivation,
loading 3 wallets from an absent file and reloading from the persisted file
behaves as stated. -/
theorem C6_load_fresh_witness :
    ([⟨0, 0, 0⟩, ⟨1, 1, 0⟩, ⟨2, 2, 0⟩] : List Wallet).length = 3 ∧
    (([⟨0, 0, 0⟩, ⟨1, 1, 0⟩, ⟨2, 2, 0⟩] : List Wallet).all
      fun w => w.lastTradeTime == 0) = true ∧
    (([⟨0, 0, 0⟩, ⟨1, 1, 0⟩, ⟨2, 2, 0⟩] : List Wallet).map
      Wallet.address).Nodup ∧
    ([⟨0, 0, 0⟩, ⟨1, 1, 0⟩, ⟨2, 2, 0⟩] : List Wallet) =
      [⟨0, 0, 0⟩, ⟨1, 1, 0⟩, ⟨2, 2, 0⟩] ∧
    initializeTempWallets (some [⟨0, 0, 0⟩, ⟨1, 1, 0⟩, ⟨2, 2, 0⟩])
        (fun x => x + 7) (fun x => x + 9) 3 =
      ([⟨0, 0, 0⟩, ⟨1, 1, 0⟩, ⟨2, 2, 0⟩], [⟨0, 0, 0⟩, ⟨1, 1, 0⟩, ⟨2, 2, 0⟩]) :=
  C6_load_fresh (fun x => x) (fun x => x) (fun x => x + 7) (fun x => x + 9) 3
    [⟨0, 0, 0⟩, ⟨1, 1, 0⟩, ⟨2, 2, 0⟩] [⟨0, 0, 0⟩, ⟨1, 1, 0⟩, ⟨2, 2, 0⟩] rfl
    (fun _ _ _ _ h => h)

/-- C7 counterexample: with a balance of 0.005 AVAX — not above the 0.01
reserve threshold — and gas price 1 gwei, the mysever.js sweep still submits
a transfer (of balance − gasCost), so "a transfer is submitted only if the
balance exceeds a small reserve threshold" fails for that variant. -/
theorem C7_counterexample :
    ¬ (5 * 10 ^ 15 : ℤ) > sweepThreshold ∧
    mysever_returnFundsToMain (5 * 10 ^ 15) (10 ^ 9) =
      some 4979000000000000 := by
  constructor
  · decide
  · norm_num [mysever_returnFundsToMain]

/-- C7 amended: the server.js sweep transfers balance − gasCost exactly when
the balance exceeds the 0.01 AVAX reserve threshold and the remainder is
positive; the mysever.js sweep has no reserve-threshold check and transfers
whenever balance − gasCost is positive. -/
theorem C7_sweep_behavior (balance gasPrice : ℤ) :
    server_returnFundsToMain balance gasPrice =
      (if balance > sweepThreshold ∧ balance - gasPrice * 21000 > 0
       then some (balance - gasPrice * 21000) else none) ∧
    mysever_returnFundsToMain balance gasPrice =
      (if balance - gasPrice * 21000 > 0
       then some (balance - gasPrice * 21000) else none) := by
  constructor
  · unfold server_returnFundsToMain
    by_cases h1 : balance > sweepThreshold <;>
      by_cases h2 : balance - gasPrice * 21000 > 0 <;>
      simp [h1, h2]
  · rfl

/-- C8 counterexample: with eligible wallets A, B, C, a stop requested right
after A's trade completes does not prevent B and C from being processed in
the same cycle — the for-loop never consults the stop flag — and only the
next loop-top check observes the stop. -/
theorem C8_counterexample :
    (finishCycle (stopTrading
        (forStep ⟨true, [⟨1, 1, 0⟩, ⟨2, 2, 0⟩, ⟨3, 3, 0⟩], []⟩))).traded =
      [⟨1, 1, 0⟩, ⟨2, 2, 0⟩, ⟨3, 3, 0⟩] ∧
    (finishCycle (stopTrading
        (forStep ⟨true, [⟨1, 1, 0⟩, ⟨2, 2, 0⟩, ⟨3, 3, 0⟩], []⟩))).traded ≠
      [⟨1, 1, 0⟩] ∧
    loopTopContinues (finishCycle (stopTrading
        (forStep ⟨true, [⟨1, 1, 0⟩, ⟨2, 2, 0⟩, ⟨3, 3, 0⟩], []⟩))) = false := by
  refine ⟨rfl, ?_, rfl⟩
  decide

/-- C8 amended: when a stop is requested mid-cycle, the in-flight trade
completes and every remaining eligible wallet of the current cycle is still
processed (the for-loop does not reread the stop flag); the loop then exits
at the next loop-top check, transitioning Running → Stopped. -/
theorem C8_stop_semantics (s : SchedState) :
    (finishCycle (stopTrading s)).traded = s.traded ++ s.remaining ∧
    loopTopContinues (finishCycle (stopTrading s)) = false := by
  constructor
  · simp [finishCycle, stopTrading, forLoopRun_eq_append]
  · rfl

/-- C9: the sell path sells between 30% and 70% of the available token
balance, for any positive balance and any random draw in [0, 1]. -/
theorem C9_sell_bounds (availableAmount r : ℚ) (hb : 0 < availableAmount)
    (hr0 : 0 ≤ r) (hr1 : r ≤ 1) :
    3 / 10 * availableAmount ≤ sellAmount availableAmount r ∧
    sellAmount availableAmount r ≤ 7 / 10 * availableAmount := by
  unfold sellAmount
  constructor <;> nlinarith

/-- C9 witness: the sell bounds at balance 10 and draw 1/2 (sell amount 5). -/
theorem C9_sell_bounds_witness :
    3 / 10 * 10 ≤ sellAmount 10 (1/2) ∧
    sellAmount 10 (1/2) ≤ 7 / 10 * 10 :=
  C9_sell_bounds 10 (1/2) (by norm_num) (by norm_num) (by norm_num)

/-- C10: in the start endpoint, overrides that are absent/NaN or parse to 0
are ||-coalesced into the chain defaults — supplying all-NaN or all-zero
overrides reproduces the defaults exactly — and since every default is
nonzero, no override can ever set a parameter to zero. -/
theorem C10_start_overrides (walletCounts AvaxFundAmount maxGas
    tradingMintAmount tradingMaxAmount tradingMinInterval
    tradingMaxInterval : Option ℚ) :
    applyStartOverrides none none none none none none none =
      myseverDefaults ∧
    applyStartOverrides (some 0) (some 0) (some 0) (some 0) (some 0) (some 0)
        (some 0) = myseverDefaults ∧
    (applyStartOverrides walletCounts AvaxFundAmount maxGas tradingMintAmount
        tradingMaxAmount tradingMinInterval tradingMaxInterval).walletCounts
      ≠ 0 ∧
    (applyStartOverrides walletCounts AvaxFundAmount maxGas tradingMintAmount
        tradingMaxAmount tradingMinInterval tradingMaxInterval).fundAmount
      ≠ 0 ∧
    (applyStartOverrides walletCounts AvaxFundAmount maxGas tradingMintAmount
        tradingMaxAmount tradingMinInterval tradingMaxInterval).maxGasPrice
      ≠ 0 ∧
    (applyStartOverrides walletCounts AvaxFundAmount maxGas tradingMintAmount
        tradingMaxAmount tradingMinInterval tradingMaxInterval).minAmountAVAX
      ≠ 0 ∧
    (applyStartOverrides walletCounts AvaxFundAmount maxGas tradingMintAmount
        tradingMaxAmount tradingMinInterval tradingMaxInterval).maxAmountAVAX
      ≠ 0 ∧
    (applyStartOverrides walletCounts AvaxFundAmount maxGas tradingMintAmount
        tradingMaxAmount tradingMinInterval tradingMaxInterval).minInterval
      ≠ 0 ∧
    (applyStartOverrides walletCounts AvaxFundAmount maxGas tradingMintAmount
        tradingMaxAmount tradingMinInterval tradingMaxInterval).maxInterval
      ≠ 0 := by
  refine ⟨?_, ?_, ?_, ?_, ?_, ?_, ?_, ?_, ?_⟩
  · simp [applyStartOverrides, jsOr, myseverDefaults]
  · simp [applyStartOverrides, jsOr, myseverDefaults]
  all_goals
    exact jsOr_ne_zero _ _ (by norm_num [myseverDefaults])

end VolumeBot
